import Mathlib

/-!
Verification development for the 3x3x3 VR Rubik's cube repository.

The authoritative implementation of the cube model and rotation engine is
`src/lib/rubiks-cube-utils.ts` (the other component files contain textually
identical copies of the same helper functions, plus React presentation code).
The definitions below are a shallow embedding of that module:

* JS `number` values are embedded as exact rationals.  We use the executable
  fraction type `Q` defined first (kept in lowest terms by construction, so
  propositional equality of `Q` values is value equality); the built-in `ℚ`
  is avoided only because its arithmetic does not reduce inside the kernel.
  All arithmetic performed by `initializeCubeState` is exact in IEEE doubles,
  so the exact embedding is faithful for initialization and for the layer
  filter on lattice states.  The floating-point behaviour of the rotation
  matrix pipeline (which is NOT exact in IEEE doubles) is modelled bit-exactly
  in the `FP` namespace below.
* The TS `colors` record has six optional string fields; they are embedded as
  `Option String` fields.
* Arrays become `List`s.  `rotateFace` in the source makes a shallow copy of
  the state array (`[...cubeState]`), filters it, and mutates the selected
  piece objects in place; its value-level meaning (the list of piece values
  observable through the returned array) is the guarded elementwise update
  `List.map (rotateOne ...)` defined below.  The aliasing/mutation semantics
  itself is modelled explicitly by `rotateFaceBang`, which represents the JS
  object heap as a list indexed by object identity, and is proved to agree
  with the value-level `rotateFace`.
-/

/-- Euclid's algorithm with an explicit structural fuel (first argument);
`fuel ≥ a + 1` suffices because the first argument strictly decreases.
Structural recursion keeps every use kernel-reducible. -/
def gcdSteps : Nat → Nat → Nat → Nat
  | 0, _, b => b
  | fuel + 1, a, b => if a = 0 then b else gcdSteps fuel (b % a) a

def natGcd (a b : Nat) : Nat := gcdSteps (a + 1) a b

/-- Executable exact rationals: numerator and positive denominator, kept in
lowest terms by the smart constructor `Q.mk'`, so that structural equality
(the derived `DecidableEq`) is value equality on all constructed values. -/
structure Q where
  num : Int
  den : Nat
deriving DecidableEq

/-- Normalizing constructor (sign on the numerator, denominator positive,
fraction reduced).  A zero denominator never arises in this development. -/
def Q.mk' (n d : Int) : Q :=
  if d = 0 then ⟨0, 1⟩
  else
    let s : Int := if d < 0 then -1 else 1
    let n' := s * n
    let d' := (s * d).toNat
    let g := natGcd n'.natAbs d'
    ⟨n' / (g : Int), d' / g⟩

def Q.ofInt (n : Int) : Q := ⟨n, 1⟩

instance : IntCast Q := ⟨Q.ofInt⟩

instance (n : Nat) : OfNat Q n := ⟨⟨(n : Int), 1⟩⟩

def Q.add (a b : Q) : Q := Q.mk' (a.num * (b.den : Int) + b.num * (a.den : Int)) ((a.den : Int) * (b.den : Int))

def Q.sub (a b : Q) : Q := Q.mk' (a.num * (b.den : Int) - b.num * (a.den : Int)) ((a.den : Int) * (b.den : Int))

def Q.mul (a b : Q) : Q := Q.mk' (a.num * b.num) ((a.den : Int) * (b.den : Int))

def Q.div (a b : Q) : Q := Q.mk' (a.num * (b.den : Int)) ((a.den : Int) * b.num)

def Q.neg (a : Q) : Q := ⟨-a.num, a.den⟩

/-- `Math.abs`. -/
def Q.abs (a : Q) : Q := ⟨(a.num.natAbs : Int), a.den⟩

instance : Add Q := ⟨Q.add⟩

instance : Sub Q := ⟨Q.sub⟩

instance : Mul Q := ⟨Q.mul⟩

instance : Div Q := ⟨Q.div⟩

instance : Neg Q := ⟨Q.neg⟩

def Q.lt (a b : Q) : Prop := a.num * (b.den : Int) < b.num * (a.den : Int)

def Q.le (a b : Q) : Prop := a.num * (b.den : Int) ≤ b.num * (a.den : Int)

instance : LT Q := ⟨Q.lt⟩

instance : LE Q := ⟨Q.le⟩

instance (a b : Q) : Decidable (a < b) :=
  inferInstanceAs (Decidable (a.num * (b.den : Int) < b.num * (a.den : Int)))

instance (a b : Q) : Decidable (a ≤ b) :=
  inferInstanceAs (Decidable (a.num * (b.den : Int) ≤ b.num * (a.den : Int)))

/-- A piece's `position: [number, number, number]` (exact-valued embedding). -/
structure Pos where
  x : Q
  y : Q
  z : Q
deriving DecidableEq

/-- JS indexing `position[axis]`: `undefined` (i.e. `none`) out of range. -/
def Pos.comp (p : Pos) : Nat → Option Q
  | 0 => some p.x
  | 1 => some p.y
  | 2 => some p.z
  | _ => none

/-- The `colors` record of a piece: six optional face colors
(`front?/back?/top?/bottom?/right?/left?: string`). -/
structure CubeColors where
  front : Option String
  back : Option String
  top : Option String
  bottom : Option String
  right : Option String
  left : Option String
deriving DecidableEq

/-- `CubePiece` from `src/lib/rubiks-cube-utils.ts`. -/
structure CubePiece where
  position : Pos
  colors : CubeColors
deriving DecidableEq

/-! The `COLORS` constant of `src/lib/rubiks-cube-utils.ts`. -/

namespace COLORS

def white : String := "#F8F8F8"

def yellow : String := "#FFD700"

def red : String := "#FF3333"

def orange : String := "#FF8C00"

def blue : String := "#0066FF"

def green : String := "#00CC00"

def black : String := "#1A1A1A"

end COLORS

def CUBE_SPACING : Q := 1

def CUBE_DIMENSIONS : Nat := 3

/-- `getFaceAxis` from `src/lib/rubiks-cube-utils.ts`: the `switch` statement,
written as the equivalent chain of label tests; the `default` branch
returns `0`. -/
def getFaceAxis (face : String) : Nat :=
  if face = "right" ∨ face = "left" then 0
  else if face = "top" ∨ face = "bottom" then 1
  else if face = "front" ∨ face = "back" then 2
  else 0

/-- The layer-selection predicate of `rotateFace`:
`Math.abs(piece.position[axis] - layer) < 0.1`.  For `axis ≥ 3` the source
reads `undefined`, and `Math.abs(undefined - layer) < 0.1` is a `NaN`
comparison, hence `false`.  On lattice-valued states and layers the exact
`1/10` used here decides exactly as the double `0.1` does. -/
def onLayer (piece : CubePiece) (axis : Nat) (layer : Q) : Bool :=
  match piece.position.comp axis with
  | some c => decide (Q.abs (c - layer) < 1 / 10)
  | none => false

/-- The geometric update of `rotateFace`:
`makeRotationAxis(e_axis, direction * π/2)` followed by `applyMatrix4`,
evaluated in exact arithmetic (`cos(±π/2) = 0`, `sin(d·π/2) = d`), which for
`direction ∈ {1, -1}` is the ideal quarter-turn the float pipeline
approximates (the float pipeline itself is `FP.rotateFaceF` below). -/
def rotatePosition (axis : Nat) (direction : Int) (p : Pos) : Pos :=
  if axis = 0 then { x := p.x, y := -(direction : Q) * p.z, z := (direction : Q) * p.y }
  else if axis = 1 then { x := (direction : Q) * p.z, y := p.y, z := -(direction : Q) * p.x }
  else if axis = 2 then { x := -(direction : Q) * p.y, y := (direction : Q) * p.x, z := p.z }
  else p

/-- The color update of `rotateFace`: the per-axis 4-cycles on the four side
faces, exactly as written in the source (`newColors = { ...colors }` followed
by the four assignments reading from the old `colors`). -/
def rotateColors (axis : Nat) (direction : Int) (colors : CubeColors) : CubeColors :=
  if axis = 0 then
    (if direction > 0 then
      { colors with top := colors.front, back := colors.top,
                    bottom := colors.back, front := colors.bottom }
    else
      { colors with front := colors.top, top := colors.back,
                    back := colors.bottom, bottom := colors.front })
  else if axis = 1 then
    (if direction > 0 then
      { colors with front := colors.right, right := colors.back,
                    back := colors.left, left := colors.front }
    else
      { colors with right := colors.front, back := colors.right,
                    left := colors.back, front := colors.left })
  else if axis = 2 then
    (if direction > 0 then
      { colors with top := colors.left, right := colors.top,
                    bottom := colors.right, left := colors.bottom }
    else
      { colors with left := colors.top, top := colors.right,
                    right := colors.bottom, bottom := colors.left })
  else colors

/-- The full per-piece update applied inside the `forEach` of `rotateFace`. -/
def transformPiece (axis : Nat) (direction : Int) (piece : CubePiece) : CubePiece :=
  { position := rotatePosition axis direction piece.position,
    colors := rotateColors axis direction piece.colors }

/-- One piece of the state after `rotateFace`: updated when selected by the
layer filter, untouched otherwise. -/
def rotateOne (axis : Nat) (layer : Q) (direction : Int) (piece : CubePiece) : CubePiece :=
  if onLayer piece axis layer then transformPiece axis direction piece else piece

/-- `rotateFace` from `src/lib/rubiks-cube-utils.ts`, value level: the list of
piece values observable through the returned array.  The source copies the
array shallowly, filters the selected layer and mutates exactly those piece
objects in place (each piece object occurs once in a well-formed state), so
the returned array holds, position by position, `rotateOne` of the previous
value.  This reading is itself proved against the explicit-heap model
`rotateFaceBang` below. -/
def rotateFace (cubeState : List CubePiece) (axis : Nat) (layer : Q)
    (direction : Int) : List CubePiece :=
  cubeState.map (rotateOne axis layer direction)

/-- `piecesToRotate.length` of `rotateFace`: how many pieces the layer filter
selects. -/
def layerCount (cubeState : List CubePiece) (axis : Nat) (layer : Q) : Nat :=
  (cubeState.filter fun piece => onLayer piece axis layer).length

/-- `rotateFace`, heap level.  JS piece objects live on a heap; object
identity is the heap index.  A cube-state array is a list of references.
`const newState = [...cubeState]` copies the reference list only, `filter`
selects references, and the `forEach` body assigns new `position`/`colors`
to each selected object, i.e. updates the heap slot.  The function returns
the (unchanged) reference list together with the mutated heap, so both the
new array and the caller's original array observe the mutated pieces. -/
def rotateFaceBang (heap : List CubePiece) (cubeState : List Nat) (axis : Nat)
    (layer : Q) (direction : Int) : List CubePiece × List Nat :=
  let piecesToRotate := cubeState.filter fun i =>
    match heap[i]? with
    | some piece => onLayer piece axis layer
    | none => false
  let heap2 := piecesToRotate.foldl (fun h i =>
    match h[i]? with
    | some piece => h.set i (transformPiece axis direction piece)
    | none => h) heap
  (heap2, cubeState)

/-- `initializeCubeState` from `src/lib/rubiks-cube-utils.ts`: triple loop over
`{0,1,2}^3`, skipping the fully-interior cell, centering by
`offset = (CUBE_DIMENSIONS - 1) / 2` and scaling by `CUBE_SPACING`; every face
field is assigned (canonical color on the boundary, `COLORS.black` filler
inside). -/
def initializeCubeState : List CubePiece :=
  let offset : Q := (((CUBE_DIMENSIONS : Int) : Q) - 1) / 2
  (List.range CUBE_DIMENSIONS).flatMap fun x =>
  (List.range CUBE_DIMENSIONS).flatMap fun y =>
  (List.range CUBE_DIMENSIONS).filterMap fun z =>
  if x ≠ 0 ∧ x ≠ CUBE_DIMENSIONS - 1 ∧ y ≠ 0 ∧ y ≠ CUBE_DIMENSIONS - 1 ∧
     z ≠ 0 ∧ z ≠ CUBE_DIMENSIONS - 1 then
    none
  else
    some
      { position :=
          { x := (((x : Int) : Q) - offset) * CUBE_SPACING,
            y := (((y : Int) : Q) - offset) * CUBE_SPACING,
            z := (((z : Int) : Q) - offset) * CUBE_SPACING },
        colors :=
          { right := some (if x = CUBE_DIMENSIONS - 1 then COLORS.red else COLORS.black),
            left := some (if x = 0 then COLORS.orange else COLORS.black),
            top := some (if y = CUBE_DIMENSIONS - 1 then COLORS.white else COLORS.black),
            bottom := some (if y = 0 then COLORS.yellow else COLORS.black),
            front := some (if z = CUBE_DIMENSIONS - 1 then COLORS.blue else COLORS.black),
            back := some (if z = 0 then COLORS.green else COLORS.black) } }

/-- A `Move` as in the spec: axis index, layer coordinate, turn direction. -/
structure Move where
  axis : Nat
  layer : Q
  direction : Int

/-- Apply a sequence of `Move`s with `rotateFace`, oldest first. -/
def applyMoves (cubeState : List CubePiece) (moves : List Move) : List CubePiece :=
  moves.foldl (fun s m => rotateFace s m.axis m.layer m.direction) cubeState

/-- The six sticker slots of one piece. -/
def colorList (c : CubeColors) : List (Option String) :=
  [c.front, c.back, c.top, c.bottom, c.right, c.left]

/-- Number of stickers of color `c` across the whole state. -/
def countColor (cubeState : List CubePiece) (c : String) : Nat :=
  (cubeState.flatMap fun piece => colorList piece.colors).count (some c)

/-- Is a rational an exact lattice coordinate of the centered cube? -/
def latticeCoord (q : Q) : Bool :=
  decide (q = -1 ∨ q = 0 ∨ q = 1)

def latticePos (p : Pos) : Bool :=
  latticeCoord p.x && latticeCoord p.y && latticeCoord p.z

/-!
`FP`: a bit-exact model of the IEEE-754 binary64 (JS `number`) arithmetic
actually performed by `rotateFace`'s geometric pipeline
(`three.js` `Matrix4.makeRotationAxis` and `Vector3.applyMatrix4`).

Doubles are represented by their exact rational values; `FP.fl` is
round-to-nearest, ties-to-even at 53 significand bits (normal range — every
value arising in this development is normal).  Each JS arithmetic operation
is the exact operation followed by `fl`, per IEEE-754.  `Math.cos`/`Math.sin`
are used by the source only at the arguments `±(Math.PI / 2)`; the doubles
they return there are the well-known values
`Math.cos(±Math.PI/2) = 6.123233995736766e-17 = 4967757600021511 / 2^106`
(not zero!) and `Math.sin(±Math.PI/2) = ±1`, recorded as constants.
-/

namespace FP

/-- Bit length of a natural number, with structural fuel (values in this
development are far below `2^1000`). -/
def bitsAux : Nat → Nat → Nat
  | 0, _ => 0
  | fuel + 1, n => if n = 0 then 0 else bitsAux fuel (n / 2) + 1

def natBits (n : Nat) : Nat := bitsAux 1000 n

/-- Exact powers of two, as rationals. -/
def pow2 (e : Int) : Q :=
  if 0 ≤ e then ⟨((2 ^ e.toNat : Nat) : Int), 1⟩ else ⟨1, 2 ^ (-e).toNat⟩

/-- The binary exponent of `q ≠ 0`: the unique `e` with `2^e ≤ |q| < 2^(e+1)`. -/
def exponent (q : Q) : Int :=
  let e1 : Int := (natBits q.num.natAbs : Int) - (natBits q.den : Int)
  if pow2 e1 ≤ Q.abs q then e1 else e1 - 1

/-- Round a positive rational (here always in `[2^52, 2^53)`) to the nearest
integer, ties to even. -/
def roundEven (m : Q) : Int :=
  let n : Int := m.num / (m.den : Int)
  let r : Q := m - Q.ofInt n
  if r < 1 / 2 then n
  else if 1 / 2 < r then n + 1
  else if n % 2 = 0 then n else n + 1

/-- Round an exact rational to the nearest binary64 value (normal range). -/
def fl (q : Q) : Q :=
  if q = 0 then 0
  else
    let e := exponent q
    let mantissa := roundEven (Q.abs q * pow2 (52 - e))
    (if q < 0 then -Q.ofInt mantissa else Q.ofInt mantissa) * pow2 (e - 52)

def fadd (a b : Q) : Q := fl (a + b)

def fsub (a b : Q) : Q := fl (a - b)

def fmul (a b : Q) : Q := fl (a * b)

def fdiv (a b : Q) : Q := fl (a / b)

/-- The binary64 value of `Math.PI` (`0x1.921fb54442d18p+1`). -/
def PI : Q := ⟨884279719003555, 281474976710656⟩

/-- The binary64 value of `Math.cos(Math.PI / 2)` (`0x1.1a62633145c07p-54`,
that is `6.123233995736766e-17`). -/
def cosHalfPI : Q := ⟨4967757600021511, 81129638414606681695789005144064⟩

/-- The binary64 value of the literal `0.1`. -/
def tenth : Q := ⟨3602879701896397, 36028797018963968⟩

/-- `Math.cos` at the only arguments the source uses (`±(Math.PI / 2)`). -/
def cosF (a : Q) : Q :=
  if a = fdiv PI 2 ∨ a = -(fdiv PI 2) then cosHalfPI else 0

/-- `Math.sin` at the only arguments the source uses (`±(Math.PI / 2)`). -/
def sinF (a : Q) : Q :=
  if a = fdiv PI 2 then 1 else if a = -(fdiv PI 2) then -1 else 0

/-- A `three.js` `Matrix4` in row-major naming `n11 … n44` (the `elements`
array is column-major: `elements[0] = n11`, `elements[1] = n21`, …). -/
structure Mat4 where
  n11 : Q
  n12 : Q
  n13 : Q
  n14 : Q
  n21 : Q
  n22 : Q
  n23 : Q
  n24 : Q
  n31 : Q
  n32 : Q
  n33 : Q
  n34 : Q
  n41 : Q
  n42 : Q
  n43 : Q
  n44 : Q

/-- `Matrix4.makeRotationAxis(axis, angle)` from `three.js`, with every JS
arithmetic operation rounded by `fl` in source evaluation order. -/
def makeRotationAxis (ax ay az : Q) (angle : Q) : Mat4 :=
  let c := cosF angle
  let s := sinF angle
  let t := fsub 1 c
  let tx := fmul t ax
  let ty := fmul t ay
  { n11 := fadd (fmul tx ax) c
    n12 := fsub (fmul tx ay) (fmul s az)
    n13 := fadd (fmul tx az) (fmul s ay)
    n14 := 0
    n21 := fadd (fmul tx ay) (fmul s az)
    n22 := fadd (fmul ty ay) c
    n23 := fsub (fmul ty az) (fmul s ax)
    n24 := 0
    n31 := fsub (fmul tx az) (fmul s ay)
    n32 := fadd (fmul ty az) (fmul s ax)
    n33 := fadd (fmul (fmul t az) az) c
    n34 := 0
    n41 := 0
    n42 := 0
    n43 := 0
    n44 := 1 }

/-- `Vector3.applyMatrix4(m)` from `three.js` (including the `w` division),
with every JS arithmetic operation rounded by `fl` in source order. -/
def applyMatrix4 (v : Pos) (m : Mat4) : Pos :=
  let w := fdiv 1 (fadd (fadd (fadd (fmul m.n41 v.x) (fmul m.n42 v.y)) (fmul m.n43 v.z)) m.n44)
  { x := fmul (fadd (fadd (fadd (fmul m.n11 v.x) (fmul m.n12 v.y)) (fmul m.n13 v.z)) m.n14) w
    y := fmul (fadd (fadd (fadd (fmul m.n21 v.x) (fmul m.n22 v.y)) (fmul m.n23 v.z)) m.n24) w
    z := fmul (fadd (fadd (fadd (fmul m.n31 v.x) (fmul m.n32 v.y)) (fmul m.n33 v.z)) m.n34) w }

/-- `new Vector3().setComponent(axis, 1)`: the rotation axis unit vector.
(`setComponent` throws for `axis ≥ 3`; that branch is unreachable because the
layer filter then selects no piece.) -/
def axisVector (axis : Nat) : Pos :=
  if axis = 0 then ⟨1, 0, 0⟩
  else if axis = 1 then ⟨0, 1, 0⟩
  else ⟨0, 0, 1⟩

/-- The layer filter of `rotateFace` in float semantics:
`Math.abs(piece.position[axis] - layer) < 0.1` with a binary64 subtraction
and the binary64 literal `0.1`. -/
def onLayerF (piece : CubePiece) (axis : Nat) (layer : Q) : Bool :=
  match piece.position.comp axis with
  | some c => decide (Q.abs (fsub c layer) < tenth)
  | none => false

/-- `rotateFace` with its geometric update executed in exact binary64
semantics (the color update involves no arithmetic and is shared with the
value-level model). -/
def rotateFaceF (cubeState : List CubePiece) (axis : Nat) (layer : Q)
    (direction : Int) : List CubePiece :=
  cubeState.map fun piece =>
    if onLayerF piece axis layer then
      let angle := fdiv (fmul ((direction : Int) : Q) PI) 2
      let m := makeRotationAxis (axisVector axis).x (axisVector axis).y (axisVector axis).z angle
      { position := applyMatrix4 piece.position m,
        colors := rotateColors axis direction piece.colors }
    else piece

end FP

/-- `SelectedFace` from `src/components/rubiks-cube.tsx`: the transient
gesture selection `{ piece, face }`. -/
structure SelectedFace where
  piece : CubePiece
  face : String
deriving DecidableEq

/-- `RotatingFace` from `src/components/rubiks-cube.tsx`: the in-flight turn
`{ axis, layer, direction, progress }`; `rotatingFace` being non-null is the
component's Rotating state. -/
structure RotatingFace where
  axis : Nat
  layer : Q
  direction : Int
  progress : Q
deriving DecidableEq

/-!
Gesture-to-Move mapper state, from the two component variants the claims
cite.  React `useState` hooks of a component are modelled as a state record;
an event handler is a function from the record (plus the event's payload) to
the updated record.
-/

namespace CubeModel

/-- The `useState` hooks of `CubeModel` in `src/components/rubiks-cube.tsx`. -/
structure State where
  cubeState : List CubePiece
  selectedFace : Option SelectedFace
  rotatingFace : Option RotatingFace
  grabbedFace : Option SelectedFace
deriving DecidableEq

/-- `handleSelect` of `CubeModel` (`src/components/rubiks-cube.tsx` lines
94-97): `if (rotatingFace) return` gate, otherwise record the selection. -/
def handleSelect (st : State) (piece : CubePiece) (face : String) : State :=
  if st.rotatingFace.isSome then st
  else { st with selectedFace := some { piece := piece, face := face } }

end CubeModel

namespace RubiksCubeModel

/-- The `useState` hooks of `RubiksCubeModel` in
`src/components/cube/RubiksCube.tsx`. -/
structure State where
  cubeState : List CubePiece
  isGrabbing : Bool
  grabbedFace : Option SelectedFace
  lastControllerPosition : Option Pos
  rotationInProgress : Bool
deriving DecidableEq

/-- `handleSelect` of `RubiksCubeModel` (`src/components/cube/RubiksCube.tsx`
lines 56-94): `if (rotationInProgress) return` gate; otherwise, when an XR
pose is available, the async pose callback records the controller position
and the grabbed face and sets `isGrabbing`.  The pose itself and the
closest-face resolution are device input, which the spec places outside the
core (§1), so they arrive here as the already-resolved parameters
`gripPosition` and `closestFace`; with no XR pose nothing is recorded. -/
def handleSelect (st : State) (piece : CubePiece) (closestFace : String)
    (gripPosition : Option Pos) : State :=
  if st.rotationInProgress then st
  else
    match gripPosition with
    | some gp =>
      { st with lastControllerPosition := some gp,
                grabbedFace := some { piece := piece, face := closestFace },
                isGrabbing := true }
    | none => st

end RubiksCubeModel

/-- The solved piece at centered position `(1, 1, 1)` (index 25 of
`initializeCubeState`). -/
def solvedPiece111 : CubePiece :=
  { position := { x := 1, y := 1, z := 1 },
    colors := { front := some COLORS.blue, back := some COLORS.black,
                top := some COLORS.white, bottom := some COLORS.black,
                right := some COLORS.red, left := some COLORS.black } }

/-- The solved piece at centered position `(-1, -1, -1)` (index 0 of
`initializeCubeState`). -/
def solvedCornerPiece : CubePiece :=
  { position := { x := -1, y := -1, z := -1 },
    colors := { front := some COLORS.black, back := some COLORS.green,
                top := some COLORS.black, bottom := some COLORS.yellow,
                right := some COLORS.black, left := some COLORS.orange } }

/-- `solvedPiece111` after the code's positive quarter-turn about the Y axis:
position `(1, 1, -1)`; `front` takes the old `right`, `right` the old `back`,
`back` the old `left`, `left` the old `front`. -/
def turnedPiece111Y : CubePiece :=
  { position := { x := 1, y := 1, z := -1 },
    colors := { front := some COLORS.red, back := some COLORS.black,
                top := some COLORS.white, bottom := some COLORS.black,
                right := some COLORS.black, left := some COLORS.blue } }

/-!
Claim theorems.  Each claim of the specification audit is settled by exactly
one theorem below (plus, where applicable, a concrete witness or
counterexample).  Supporting lemmas are shared and never named after a claim.
-/

set_option maxRecDepth 100000

/-- Helper: the value returned by `rotateFace` at index `i` is `rotateOne` of
the input at index `i`. -/
theorem rotateFace_getElem? (s : List CubePiece) (axis : Nat) (layer : Q)
    (direction : Int) (i : Nat) :
    (rotateFace s axis layer direction)[i]? = (s[i]?).map (rotateOne axis layer direction) :=
  List.getElem?_map (rotateOne axis layer direction) s i

/-- C6: `initializeCubeState` returns exactly 26 pieces, one per boundary
cell of `{0,1,2}^3` (the interior cell omitted) with coordinates centered by
subtracting the offset 1; no two pieces share a position; each piece carries
the canonical color exactly on its boundary faces (`right` iff `x = 1` after
centering, i.e. `x = 2` before, and so on) and the filler color
`COLORS.black` on every other face. -/
theorem initializeCubeState_solved :
    initializeCubeState.length = 26 ∧
    (initializeCubeState.map fun piece => piece.position).Nodup ∧
    (initializeCubeState.map fun piece => piece.position) =
      ([⟨-1, -1, -1⟩, ⟨-1, -1, 0⟩, ⟨-1, -1, 1⟩,
        ⟨-1, 0, -1⟩, ⟨-1, 0, 0⟩, ⟨-1, 0, 1⟩,
        ⟨-1, 1, -1⟩, ⟨-1, 1, 0⟩, ⟨-1, 1, 1⟩,
        ⟨0, -1, -1⟩, ⟨0, -1, 0⟩, ⟨0, -1, 1⟩,
        ⟨0, 0, -1⟩, ⟨0, 0, 1⟩,
        ⟨0, 1, -1⟩, ⟨0, 1, 0⟩, ⟨0, 1, 1⟩,
        ⟨1, -1, -1⟩, ⟨1, -1, 0⟩, ⟨1, -1, 1⟩,
        ⟨1, 0, -1⟩, ⟨1, 0, 0⟩, ⟨1, 0, 1⟩,
        ⟨1, 1, -1⟩, ⟨1, 1, 0⟩, ⟨1, 1, 1⟩] : List Pos) ∧
    (initializeCubeState.all fun piece =>
      (piece.colors.right == some (if piece.position.x = 1 then COLORS.red else COLORS.black)) &&
      (piece.colors.left == some (if piece.position.x = -1 then COLORS.orange else COLORS.black)) &&
      (piece.colors.top == some (if piece.position.y = 1 then COLORS.white else COLORS.black)) &&
      (piece.colors.bottom == some (if piece.position.y = -1 then COLORS.yellow else COLORS.black)) &&
      (piece.colors.front == some (if piece.position.z = 1 then COLORS.blue else COLORS.black)) &&
      (piece.colors.back == some (if piece.position.z = -1 then COLORS.green else COLORS.black))) = true :=
  ⟨by decide, by decide, by decide, by decide⟩

/-- C10: `getFaceAxis` is total over arbitrary strings and returns the X axis
(`0`) for every string that is not one of the six face labels, without
signalling anything. -/
theorem getFaceAxis_default_zero (face : String)
    (h1 : face ≠ "right") (h2 : face ≠ "left") (h3 : face ≠ "top")
    (h4 : face ≠ "bottom") (h5 : face ≠ "front") (h6 : face ≠ "back") :
    getFaceAxis face = 0 := by
  simp [getFaceAxis, h1, h2, h3, h4, h5, h6]

/-- Witness for C10 at the concrete unrecognized label `"cyan"`. -/
theorem getFaceAxis_default_zero_witness :
    ("cyan" ≠ "right" ∧ "cyan" ≠ "left" ∧ "cyan" ≠ "top" ∧ "cyan" ≠ "bottom" ∧
      "cyan" ≠ "front" ∧ "cyan" ≠ "back") ∧
    getFaceAxis "cyan" = 0 :=
  ⟨by decide,
   getFaceAxis_default_zero "cyan" (by decide) (by decide) (by decide) (by decide)
     (by decide) (by decide)⟩

/-- C2 counterexample: the middle-layer selection on the canonical 26-piece
state matches 8 pieces, not 9, and `rotateFace` neither signals any error nor
leaves the prior state untouched — it silently rotates the malformed layer. -/
theorem rotateFace_malformed_layer_rotates :
    layerCount initializeCubeState 0 0 ≠ 9 ∧
    rotateFace initializeCubeState 0 0 1 ≠ initializeCubeState :=
  ⟨by decide, by decide⟩

/-- C2 (amended): `rotateFace` is a total function with no failure channel:
for every state and move it returns a same-length state in which exactly the
pieces matched by the layer filter are transformed and all others are kept,
regardless of how many pieces the filter matched; in particular the
middle-layer move on the canonical 26-piece state matches only 8 pieces and
is still applied silently (no `MalformedLayerError` exists anywhere in the
code). -/
theorem rotateFace_total_silent :
    (∀ (s : List CubePiece) (axis : Nat) (layer : Q) (direction : Int),
      (rotateFace s axis layer direction).length = s.length) ∧
    (∀ (s : List CubePiece) (axis : Nat) (layer : Q) (direction : Int) (i : Nat),
      (rotateFace s axis layer direction)[i]? = (s[i]?).map (rotateOne axis layer direction)) ∧
    layerCount initializeCubeState 0 0 = 8 ∧
    rotateFace initializeCubeState 0 0 1 ≠ initializeCubeState :=
  ⟨fun s _ _ _ => List.length_map s _,
   fun s axis layer direction i => List.getElem?_map (rotateOne axis layer direction) s i,
   by decide, by decide⟩

/-- Helper: lattice coordinates at distinct lattice values are at distance at
least 1, hence never within the 0.1 layer tolerance. -/
theorem lattice_offLayer {c layer : Q} (hc : c = -1 ∨ c = 0 ∨ c = 1)
    (hl : layer = -1 ∨ layer = 0 ∨ layer = 1) (hne : c ≠ layer) :
    ¬ (Q.abs (c - layer) < 1 / 10) := by
  rcases hc with rfl | rfl | rfl <;> rcases hl with rfl | rfl | rfl <;>
    first
      | exact absurd rfl hne
      | decide

/-- C8: for a valid (lattice-valued) piece and a lattice layer value, a piece
whose coordinate along the move's axis differs from the layer value comes out
of `rotateFace` completely unchanged — same position, same colors. -/
theorem rotateFace_offLayer_unchanged (s : List CubePiece) (axis : Nat) (layer : Q)
    (direction : Int) (i : Nat) (p : CubePiece)
    (hip : s[i]? = some p)
    (hax : axis < 3)
    (hl : layer = -1 ∨ layer = 0 ∨ layer = 1)
    (hlat : latticePos p.position = true)
    (hne : p.position.comp axis ≠ some layer) :
    (rotateFace s axis layer direction)[i]? = some p := by
  rw [rotateFace_getElem?, hip]
  have hlat' : (latticeCoord p.position.x = true ∧ latticeCoord p.position.y = true) ∧
      latticeCoord p.position.z = true := by
    simpa [latticePos, Bool.and_eq_true] using hlat
  have hoff : onLayer p axis layer = false := by
    interval_cases axis <;>
      simp only [onLayer, Pos.comp, decide_eq_false_iff_not] <;>
      refine lattice_offLayer ?_ hl ?_
    · exact of_decide_eq_true hlat'.1.1
    · exact fun hcl => hne (by simp [Pos.comp, hcl])
    · exact of_decide_eq_true hlat'.1.2
    · exact fun hcl => hne (by simp [Pos.comp, hcl])
    · exact of_decide_eq_true hlat'.2
    · exact fun hcl => hne (by simp [Pos.comp, hcl])
  simp [rotateOne, hoff]

/-- Witness for C8: the corner at `(-1,-1,-1)` is untouched by the
`{axis X, layer 1, direction +1}` move on the solved state. -/
theorem rotateFace_offLayer_unchanged_witness :
    (initializeCubeState[0]? = some solvedCornerPiece ∧ 0 < 3 ∧
      ((1 : Q) = -1 ∨ (1 : Q) = 0 ∨ (1 : Q) = 1) ∧
      latticePos solvedCornerPiece.position = true ∧
      solvedCornerPiece.position.comp 0 ≠ some 1) ∧
    (rotateFace initializeCubeState 0 1 1)[0]? = some solvedCornerPiece :=
  ⟨⟨by decide, by decide, Or.inr (Or.inr rfl), by decide, by decide⟩,
   rotateFace_offLayer_unchanged initializeCubeState 0 1 1 0 solvedCornerPiece
     (by decide) (by decide) (Or.inr (Or.inr rfl)) (by decide) (by decide)⟩

/-- C9: while the mapper is in the Rotating state, a pick/select event is a
no-op in both component variants: the whole component state (and with it the
cube state and the recorded gesture selection) is returned unchanged, so no
second Move can be produced while one is in flight. -/
theorem rotating_gate_ignores_pick :
    (∀ (st : CubeModel.State) (piece : CubePiece) (face : String),
      st.rotatingFace.isSome = true → CubeModel.handleSelect st piece face = st) ∧
    (∀ (st : RubiksCubeModel.State) (piece : CubePiece) (face : String)
      (grip : Option Pos),
      st.rotationInProgress = true → RubiksCubeModel.handleSelect st piece face grip = st) := by
  constructor
  · intro st piece face h
    simp [CubeModel.handleSelect, h]
  · intro st piece face grip h
    simp [RubiksCubeModel.handleSelect, h]

/-- Witness for C9: a concrete Rotating-state pick in each component variant. -/
theorem rotating_gate_ignores_pick_witness :
    (({ cubeState := [], selectedFace := none,
        rotatingFace := some { axis := 0, layer := 1, direction := 1, progress := 0 },
        grabbedFace := none } : CubeModel.State).rotatingFace.isSome = true ∧
      CubeModel.handleSelect
        { cubeState := [], selectedFace := none,
          rotatingFace := some { axis := 0, layer := 1, direction := 1, progress := 0 },
          grabbedFace := none } solvedPiece111 "right" =
        { cubeState := [], selectedFace := none,
          rotatingFace := some { axis := 0, layer := 1, direction := 1, progress := 0 },
          grabbedFace := none }) ∧
    (({ cubeState := [], isGrabbing := false, grabbedFace := none,
        lastControllerPosition := none,
        rotationInProgress := true } : RubiksCubeModel.State).rotationInProgress = true ∧
      RubiksCubeModel.handleSelect
        { cubeState := [], isGrabbing := false, grabbedFace := none,
          lastControllerPosition := none, rotationInProgress := true }
        solvedPiece111 "right" none =
        { cubeState := [], isGrabbing := false, grabbedFace := none,
          lastControllerPosition := none, rotationInProgress := true }) :=
  ⟨⟨rfl, rotating_gate_ignores_pick.1 _ solvedPiece111 "right" rfl⟩,
   ⟨rfl, rotating_gate_ignores_pick.2 _ solvedPiece111 "right" none rfl⟩⟩

/-- C1 counterexample: on the solved state, apply the Y-axis move
`{axis 1, layer 1, direction +1}`.  The rotated corner that started at
`(1,1,1)` (index 25) has `front = blue`; the claim's cycle front→right would
make the new `right` blue, but the code's new `right` is not blue (it takes
the old `back`, the black filler). -/
theorem rotateFace_yAxis_cycle_reversed :
    ((initializeCubeState[25]?).map fun piece => onLayer piece 1 1) = some true ∧
    ((initializeCubeState[25]?).map fun piece => piece.colors.front) = some (some COLORS.blue) ∧
    (((rotateFace initializeCubeState 1 1 1)[25]?).map fun piece => piece.colors.right) ≠
      some (some COLORS.blue) :=
  ⟨by decide, by decide, by decide⟩

/-- C1 (amended): for every state and move, each rotated piece's four side
colors are cyclically permuted, with the X cycle front→top→back→bottom→front
for direction +1 (reversed for -1), the Z cycle top→right→bottom→left→top for
direction +1 (reversed for -1), and the Y cycle REVERSED with respect to the
claim: for direction +1 the code moves right→front, back→right, left→back,
front→left (that is front→left→back→right→front), and for direction -1
front→right→back→left→front; the two faces parallel to the rotation axis are
unchanged.  Phrased below as: the new color of a face equals the old color of
the face it takes from. -/
theorem rotateFace_color_cycles (s : List CubePiece) (axis : Nat) (layer : Q)
    (direction : Int) (i : Nat) (p q : CubePiece)
    (hp : s[i]? = some p)
    (hq : (rotateFace s axis layer direction)[i]? = some q)
    (hsel : onLayer p axis layer = true) :
    ((axis = 0 ∧ direction = 1) →
      (q.colors.top = p.colors.front ∧ q.colors.back = p.colors.top ∧
       q.colors.bottom = p.colors.back ∧ q.colors.front = p.colors.bottom ∧
       q.colors.right = p.colors.right ∧ q.colors.left = p.colors.left)) ∧
    ((axis = 0 ∧ direction = -1) →
      (q.colors.front = p.colors.top ∧ q.colors.top = p.colors.back ∧
       q.colors.back = p.colors.bottom ∧ q.colors.bottom = p.colors.front ∧
       q.colors.right = p.colors.right ∧ q.colors.left = p.colors.left)) ∧
    ((axis = 1 ∧ direction = 1) →
      (q.colors.front = p.colors.right ∧ q.colors.right = p.colors.back ∧
       q.colors.back = p.colors.left ∧ q.colors.left = p.colors.front ∧
       q.colors.top = p.colors.top ∧ q.colors.bottom = p.colors.bottom)) ∧
    ((axis = 1 ∧ direction = -1) →
      (q.colors.right = p.colors.front ∧ q.colors.back = p.colors.right ∧
       q.colors.left = p.colors.back ∧ q.colors.front = p.colors.left ∧
       q.colors.top = p.colors.top ∧ q.colors.bottom = p.colors.bottom)) ∧
    ((axis = 2 ∧ direction = 1) →
      (q.colors.top = p.colors.left ∧ q.colors.right = p.colors.top ∧
       q.colors.bottom = p.colors.right ∧ q.colors.left = p.colors.bottom ∧
       q.colors.front = p.colors.front ∧ q.colors.back = p.colors.back)) ∧
    ((axis = 2 ∧ direction = -1) →
      (q.colors.left = p.colors.top ∧ q.colors.top = p.colors.right ∧
       q.colors.right = p.colors.bottom ∧ q.colors.bottom = p.colors.left ∧
       q.colors.front = p.colors.front ∧ q.colors.back = p.colors.back)) := by
  rw [rotateFace_getElem?, hp] at hq
  have hq' : q = rotateOne axis layer direction p := by
    simpa using hq.symm
  subst hq'
  refine ⟨?_, ?_, ?_, ?_, ?_, ?_⟩ <;> rintro ⟨rfl, rfl⟩ <;>
    simp [rotateOne, hsel, transformPiece, rotateColors]

/-- Witness for C1 at the spec's concrete scenario adapted to the Y axis:
solved state, move `{axis 1, layer 1, direction +1}`, corner starting at
`(1,1,1)`. -/
theorem rotateFace_color_cycles_witness :
    (initializeCubeState[25]? = some solvedPiece111 ∧
      (rotateFace initializeCubeState 1 1 1)[25]? = some turnedPiece111Y ∧
      onLayer solvedPiece111 1 1 = true) ∧
    (turnedPiece111Y.colors.front = solvedPiece111.colors.right ∧
     turnedPiece111Y.colors.right = solvedPiece111.colors.back ∧
     turnedPiece111Y.colors.back = solvedPiece111.colors.left ∧
     turnedPiece111Y.colors.left = solvedPiece111.colors.front ∧
     turnedPiece111Y.colors.top = solvedPiece111.colors.top ∧
     turnedPiece111Y.colors.bottom = solvedPiece111.colors.bottom) :=
  ⟨⟨by decide, by decide, by decide⟩,
   (rotateFace_color_cycles initializeCubeState 1 1 1 25 solvedPiece111 turnedPiece111Y
      (by decide) (by decide) (by decide)).2.2.1 ⟨rfl, rfl⟩⟩

/-- Helper: the per-piece color permutation preserves the sticker multiset of
one piece (counted for an arbitrary sticker value). -/
theorem colorList_count_rotateColors (axis : Nat) (direction : Int)
    (c : CubeColors) (o : Option String) :
    (colorList (rotateColors axis direction c)).count o = (colorList c).count o := by
  unfold rotateColors colorList
  split_ifs <;> simp [List.count_cons] <;> ring

/-- Helper: `rotateFace` preserves the total sticker count of every color. -/
theorem countColor_rotateFace (s : List CubePiece) (axis : Nat) (layer : Q)
    (direction : Int) (c : String) :
    countColor (rotateFace s axis layer direction) c = countColor s c := by
  unfold countColor rotateFace
  induction s with
  | nil => rfl
  | cons p rest ih =>
    simp only [List.map_cons, List.flatMap_cons, List.count_append]
    have hp : (colorList (rotateOne axis layer direction p).colors).count (some c) =
        (colorList p.colors).count (some c) := by
      by_cases hsel : onLayer p axis layer
      · simp [rotateOne, hsel, transformPiece, colorList_count_rotateColors]
      · simp [rotateOne, hsel]
    rw [hp, ih]

/-- Helper: any sequence of moves preserves the sticker count of every color. -/
theorem countColor_applyMoves (moves : List Move) :
    ∀ (s : List CubePiece) (c : String),
      countColor (applyMoves s moves) c = countColor s c := by
  induction moves with
  | nil => intro s c; rfl
  | cons m rest ih =>
    intro s c
    have h1 : applyMoves s (m :: rest) = applyMoves (rotateFace s m.axis m.layer m.direction) rest := rfl
    rw [h1, ih, countColor_rotateFace]

/-- C5: starting from the solved state, after any finite sequence of moves
each of the six canonical colors appears on exactly 9 stickers — the sticker
multiset is invariant because every turn only permutes colors between faces
and pieces. -/
theorem color_conservation (moves : List Move)
    (hm : ∀ m ∈ moves, m.axis < 3 ∧ (m.direction = 1 ∨ m.direction = -1))
    (c : String)
    (hc : c ∈ [COLORS.white, COLORS.yellow, COLORS.red, COLORS.orange,
               COLORS.blue, COLORS.green]) :
    countColor (applyMoves initializeCubeState moves) c = 9 := by
  rw [countColor_applyMoves]
  fin_cases hc <;> decide

/-- Witness for C5 with the one-move sequence `{axis X, layer 1, dir +1}` and
the color white. -/
theorem color_conservation_witness :
    ((∀ m ∈ ([{ axis := 0, layer := 1, direction := 1 }] : List Move),
        m.axis < 3 ∧ (m.direction = 1 ∨ m.direction = -1)) ∧
      COLORS.white ∈ [COLORS.white, COLORS.yellow, COLORS.red, COLORS.orange,
                      COLORS.blue, COLORS.green]) ∧
    countColor (applyMoves initializeCubeState
      [{ axis := 0, layer := 1, direction := 1 }]) COLORS.white = 9 :=
  ⟨⟨by decide, by decide⟩,
   color_conservation [{ axis := 0, layer := 1, direction := 1 }] (by decide)
     COLORS.white (by decide)⟩

/-- Helper: reading index `j` after the `forEach` mutation loop of
`rotateFaceBang`: indices in the (duplicate-free) worklist hold the
transformed piece, all others are untouched. -/
theorem foldl_setTransform_getElem? (f : CubePiece → CubePiece) :
    ∀ (L : List Nat) (h : List CubePiece) (j : Nat), L.Nodup →
      (L.foldl (fun acc i =>
        match acc[i]? with
        | some piece => acc.set i (f piece)
        | none => acc) h)[j]? =
      if j ∈ L then (h[j]?).map f else h[j]? := by
  intro L
  induction L with
  | nil => intro h j _; simp
  | cons i L ih =>
    intro h j hnd
    have hiL : i ∉ L := (List.nodup_cons.mp hnd).1
    have hndL : L.Nodup := (List.nodup_cons.mp hnd).2
    rw [List.foldl_cons, ih _ _ hndL]
    by_cases hji : j = i
    · subst hji
      have hjL : j ∉ L := hiL
      rw [if_neg hjL, if_pos (List.mem_cons_self j L)]
      cases hh : h[j]? with
      | none => simp [hh]
      | some piece =>
        have hlt : j < h.length := by
          rcases List.getElem?_eq_some.mp hh with ⟨hl, _⟩
          exact hl
        simp [hh, List.getElem?_set_eq_of_lt _ hlt]
    · have hstep : (match h[i]? with
          | some piece => h.set i (f piece)
          | none => h)[j]? = h[j]? := by
        cases hh : h[i]? with
        | none => simp
        | some piece => simp [List.getElem?_set_ne (Ne.symm hji)]
      rw [hstep]
      simp [List.mem_cons, hji]

/-- C3 counterexample: call `rotateFace` (heap model `rotateFaceBang`) on the
solved state with the move `{axis X, layer 1, direction +1}`.  Afterwards the
piece object that the caller's input state references at index 25 no longer
holds its pre-call position/colors: the input state was mutated. -/
theorem rotateFaceBang_changes_input_pieces :
    ((rotateFaceBang initializeCubeState (List.range 26) 0 1 1).1)[25]? ≠
      initializeCubeState[25]? := by decide

/-- C3 (amended): `rotateFace` does mutate its input.  It returns a fresh
array object, but that array shares its piece objects with the input state;
each piece selected by the layer filter is updated in place, so after the
call the caller's original state observes exactly the rotated pieces — for
every reference `i` of a duplicate-free input state, the piece seen through
`i` after the call is `rotateOne` of what it was before (and the returned
reference list is the input's reference list) — rather than the pre-call
values the claim asserts. -/
theorem rotateFaceBang_mutates_input (heap : List CubePiece) (ids : List Nat)
    (axis : Nat) (layer : Q) (direction : Int) (i : Nat) (p : CubePiece)
    (hnd : ids.Nodup) (hmem : i ∈ ids) (hp : heap[i]? = some p) :
    ((rotateFaceBang heap ids axis layer direction).1)[i]? =
      some (rotateOne axis layer direction p) ∧
    (rotateFaceBang heap ids axis layer direction).2 = ids := by
  constructor
  · show (((ids.filter fun i => match heap[i]? with
        | some piece => onLayer piece axis layer
        | none => false).foldl (fun h i =>
          match h[i]? with
          | some piece => h.set i (transformPiece axis direction piece)
          | none => h) heap))[i]? = _
    rw [foldl_setTransform_getElem? (transformPiece axis direction) _ heap i
      (hnd.filter _)]
    by_cases hsel : onLayer p axis layer
    · have hin : i ∈ ids.filter fun i => match heap[i]? with
          | some piece => onLayer piece axis layer
          | none => false :=
        List.mem_filter.mpr ⟨hmem, by simp [hp, hsel]⟩
      rw [if_pos hin, hp]
      simp [rotateOne, hsel]
    · have hout : i ∉ ids.filter fun i => match heap[i]? with
          | some piece => onLayer piece axis layer
          | none => false := by
        intro hin
        have := (List.mem_filter.mp hin).2
        simp [hp, hsel] at this
      rw [if_neg hout, hp]
      simp [rotateOne, hsel]
  · rfl

/-- Witness for C3 on the solved state: after the `{X,1,+1}` call the piece
referenced at index 25 is the rotated `(1,1,1)` corner. -/
theorem rotateFaceBang_mutates_input_witness :
    ((List.range 26).Nodup ∧ 25 ∈ List.range 26 ∧
      initializeCubeState[25]? = some solvedPiece111) ∧
    ((rotateFaceBang initializeCubeState (List.range 26) 0 1 1).1)[25]? =
      some (rotateOne 0 1 1 solvedPiece111) :=
  ⟨⟨by decide, by decide, by decide⟩,
   (rotateFaceBang_mutates_input initializeCubeState (List.range 26) 0 1 1 25
      solvedPiece111 (by decide) (by decide) (by decide)).1⟩

/-- C4: the spec's concrete four-turn scenario, evaluated in the exact
binary64 semantics of the code: applying `{axis X, layer 1, direction +1}`
four times to the solved state does NOT restore it.  `Math.cos(Math.PI/2)`
is `6.123233995736766e-17`, not `0`, and `rotateFace` never rounds, so
rotated coordinates drift (e.g. the piece starting at `(1,0,-1)` ends with
`z = -2251799813685247/2251799813685248 ≠ -1`). -/
theorem fourTurn_float_drift :
    FP.rotateFaceF (FP.rotateFaceF (FP.rotateFaceF (FP.rotateFaceF
      initializeCubeState 0 1 1) 0 1 1) 0 1 1) 0 1 1 ≠ initializeCubeState := by
  decide

/-- C7: the solved state is exactly lattice-valued, but already after a
single `{axis X, layer 1, direction +1}` turn, evaluated in the exact
binary64 semantics of the code, some rotated coordinate lies outside
`{-1, 0, 1}` — `rotateFace` contains no rounding step. -/
theorem rotateFace_no_rounding_drift :
    (initializeCubeState.all fun piece => latticePos piece.position) = true ∧
    ((FP.rotateFaceF initializeCubeState 0 1 1).all fun piece =>
      latticePos piece.position) = false :=
  ⟨by decide, by decide⟩
